import Mathlib

/-
Verification development for the Camelyon InceptionV3 fine-tuning script
(src/keras/inceptionv3/hdf5_generators.py).

The script is linear: parse arguments, load four named arrays from an HDF5
container, build or load a model, train in up to two phases, save
checkpoints, optionally plot the training history.  We embed it shallowly:

  * the parsed command line becomes a Config record;
  * the HDF5 container content becomes a RawDataset of lists (image rows
    are abstracted to integer identifiers, labels are integer class
    indices);
  * per-layer trainable flags become a total function from layer index to
    Bool (indices beyond the actual layer count are phantom and never
    examined by the script, which only slices at index 280);
  * the observable behaviour of one run becomes a list of Events: every
    compile, fit, file save, file load and plot, in program order;
  * the keras ModelCheckpoint callback used during the fine-tuning fit is
    modelled separately as a fold over the per-epoch validation-accuracy
    values.
-/

namespace Camelyon

/-- The parsed command line of the script: flags -g, -m, -e, -b, -t, -f,
-o, -n, -H in source order.  The tile count is a natural number (a
negative tile count is outside the behaviour described by the spec). -/
structure Config where
  GPUs : Int
  input_model : Option String
  epochs : Int
  batch_size : Int
  tiles : Option Nat
  file_input : String
  output_directory : String
  output_name : String
  graphical_history : Bool

/-- The script normalizes the output directory with rstrip of slashes. -/
def rstripSlash (s : String) : String := s.dropRightWhile (fun c => c == '/')

/-- Content of the four named arrays of the input HDF5 container:
train_img, train_labels, val_img, val_labels.  Image rows are abstracted
to integer identifiers. -/
structure RawDataset where
  train_img : List Nat
  train_labels : List Nat
  val_img : List Nat
  val_labels : List Nat

/-- Maximum class index occurring in a label column (numpy max; the empty
case is degenerate and taken as 0 here). -/
def maxLabel (ys : List Nat) : Nat := ys.foldr max 0

/-- Width of the one-hot vectors produced by to_categorical when no class
count is passed: maximum observed label plus one. -/
def numClasses (ys : List Nat) : Nat := maxLabel ys + 1

/-- keras.utils.to_categorical with no explicit class count: each integer
label becomes a one-hot row of width numClasses. -/
def to_categorical (ys : List Nat) : List (List Nat) :=
  ys.map (fun y => (List.range (numClasses ys)).map (fun i => if i = y then 1 else 0))

/-- train_frac = int(args.tiles*0.8).  The double computation agrees with
the exact rational floor for every subset size below 2^50, so it is
embedded as natural floor division. -/
def train_frac (tiles : Nat) : Nat := tiles * 8 / 10

/-- val_frac = int(args.tiles*0.2), embedded as natural floor division on
the same grounds as train_frac. -/
def val_frac (tiles : Nat) : Nat := tiles * 2 / 10

/-- Rows of train_img the run uses: all of them, or, when a tile count was
given, the prefix of length train_frac (HDF5Matrix with end=train_frac). -/
def trainImgSlice (tiles : Option Nat) (raw : RawDataset) : List Nat :=
  match tiles with
  | none => raw.train_img
  | some n => raw.train_img.take (train_frac n)

/-- Rows of train_labels the run uses, before one-hot encoding. -/
def trainLabelSlice (tiles : Option Nat) (raw : RawDataset) : List Nat :=
  match tiles with
  | none => raw.train_labels
  | some n => raw.train_labels.take (train_frac n)

/-- Rows of val_img the run uses. -/
def valImgSlice (tiles : Option Nat) (raw : RawDataset) : List Nat :=
  match tiles with
  | none => raw.val_img
  | some n => raw.val_img.take (val_frac n)

/-- Rows of val_labels the run uses, before one-hot encoding. -/
def valLabelSlice (tiles : Option Nat) (raw : RawDataset) : List Nat :=
  match tiles with
  | none => raw.val_labels
  | some n => raw.val_labels.take (val_frac n)

/-- The four arrays as the fit calls receive them: image slices as is,
label slices one-hot encoded by to_categorical. -/
structure LoadedData where
  train_data : List Nat
  train_labels : List (List Nat)
  val_data : List Nat
  val_labels : List (List Nat)

/-- Data loading of the script, including the optional tile subsetting. -/
def loadData (tiles : Option Nat) (raw : RawDataset) : LoadedData :=
  ⟨trainImgSlice tiles raw, to_categorical (trainLabelSlice tiles raw),
   valImgSlice tiles raw, to_categorical (valLabelSlice tiles raw)⟩

/-- Per-layer trainable flags after the loop for layer in layers[:k]. -/
def setBelow (flags : Nat → Bool) (k : Nat) (b : Bool) : Nat → Bool :=
  fun i => if i < k then b else flags i

/-- Per-layer trainable flags after the loop for layer in layers[k:]. -/
def setFrom (flags : Nat → Bool) (k : Nat) (b : Bool) : Nat → Bool :=
  fun i => if k ≤ i then b else flags i

/-- Arguments of one model.compile call, together with the per-layer
trainable flags of the model at that moment. -/
structure CompileCall where
  optimizer : String
  loss : String
  metrics : List String
  flags : Nat → Bool

/-- Arguments of one model.fit call: training arrays, optional validation
arrays, epoch count, batch size, the shuffle behaviour (the script always
passes shuffle as the string batch), the per-layer trainable flags at the
moment of the call, and the target path of the ModelCheckpoint callback
when one is installed. -/
structure FitCall where
  trainX : List Nat
  trainY : List (List Nat)
  validation : Option (List Nat × List (List Nat))
  epochs : Int
  batchSize : Int
  shuffleBatch : Bool
  flags : Nat → Bool
  checkpoint : Option String

/-- One observable step of the script. -/
inductive Event where
  | loadFile : String → Event
  | saveFile : String → (Nat → Bool) → Event
  | compile : CompileCall → Event
  | fit : FitCall → Event
  | plot : String → Nat → Event

/-- Output directory after the rstrip normalization at the top of the
script. -/
def outDir (cfg : Config) : String := rstripSlash cfg.output_directory

/-- Target path of the ModelCheckpoint callback. -/
def checkpointPath (cfg : Config) : String :=
  outDir cfg ++ "/" ++ cfg.output_name ++ "_model.h5"

/-- Target path of the optional training-history figure. -/
def historyPath (cfg : Config) : String :=
  outDir cfg ++ "/" ++ cfg.output_name ++ "_training_history.png"

/-- Modelled from the framework: the History object of a fit call records
one entry per completed epoch in each of its series, and a nonpositive
epoch request completes zero epochs. -/
def fitHistoryLen (epochs : Int) : Nat := epochs.toNat

/-- Per-layer trainable flags of the fresh model during phase 1: the two
freeze loops set layers below index 280 non-trainable and layers from
index 280 on trainable (newly constructed keras layers start trainable,
so the starting point is the constant true function). -/
def phase1Flags : Nat → Bool := setFrom (setBelow (fun _ => true) 280 false) 280 true

/-- Per-layer trainable flags after the unfreeze loop that follows the
phase-1 fit: layers below index 280 are flipped back to trainable. -/
def unfrozenFlags : Nat → Bool := setBelow phase1Flags 280 true

/-- The trailing plot event, present when the history flag is set; the
epoch axis runs over the history of the last fit call. -/
def plotTail (cfg : Config) (epochs : Int) : List Event :=
  if cfg.graphical_history then
    [Event.plot (historyPath cfg) (fitHistoryLen epochs)] else []

/-- The events of the fresh path, in source order: freeze loops, compile
with the accuracy metric, 1-epoch head-only fit without validation,
unfreeze loop, metric-free recompile, save of intermediate_model.hdf5,
reload of that file, recompile with the accuracy metric, fine-tuning fit
of max 1 (epochs - 1) epochs with validation and the checkpoint
callback. -/
def freshEvents (cfg : Config) (raw : RawDataset) : List Event :=
  let d := loadData cfg.tiles raw
  [Event.compile ⟨"sgd", "categorical_crossentropy", ["accuracy"], phase1Flags⟩,
   Event.fit ⟨d.train_data, d.train_labels, none, 1, cfg.batch_size, true,
              phase1Flags, none⟩,
   Event.compile ⟨"sgd", "categorical_crossentropy", [], unfrozenFlags⟩,
   Event.saveFile "intermediate_model.hdf5" unfrozenFlags,
   Event.loadFile "intermediate_model.hdf5",
   Event.compile ⟨"sgd", "categorical_crossentropy", ["accuracy"], unfrozenFlags⟩,
   Event.fit ⟨d.train_data, d.train_labels, some (d.val_data, d.val_labels),
              max 1 (cfg.epochs - 1), cfg.batch_size, true, unfrozenFlags,
              some (checkpointPath cfg)⟩]

/-- The events of the resume path, in source order: load the supplied
model, compile with the accuracy metric, one fit of the requested epochs
with validation and the checkpoint callback.  loadedFlags abstracts the
per-layer trainable flags of the deserialized model, which the script
never rewrites on this path. -/
def resumeEvents (cfg : Config) (path : String) (loadedFlags : Nat → Bool)
    (raw : RawDataset) : List Event :=
  let d := loadData cfg.tiles raw
  [Event.loadFile path,
   Event.compile ⟨"sgd", "categorical_crossentropy", ["accuracy"], loadedFlags⟩,
   Event.fit ⟨d.train_data, d.train_labels, some (d.val_data, d.val_labels),
              cfg.epochs, cfg.batch_size, true, loadedFlags,
              some (checkpointPath cfg)⟩]

/-- The run of the script as a list of observable events, in program
order.  The GPU count only changes how the model object is wrapped, not
the event sequence, so it does not appear. -/
def scriptTrace (cfg : Config) (loadedFlags : Nat → Bool) (raw : RawDataset) : List Event :=
  match cfg.input_model with
  | some path => resumeEvents cfg path loadedFlags raw ++ plotTail cfg cfg.epochs
  | none => freshEvents cfg raw ++ plotTail cfg (max 1 (cfg.epochs - 1))

/-- The fit calls of a trace, in order. -/
def fitEvents (t : List Event) : List FitCall :=
  t.filterMap (fun e => match e with | .fit c => some c | _ => none)

/-- Epoch arguments of the fit calls of a trace, in order. -/
def fitEpochsList (t : List Event) : List Int :=
  (fitEvents t).map (fun c => c.epochs)

/-- Epoch arguments of the fit calls that carry the ModelCheckpoint
callback: on both paths, exactly the final (fine-tuning) fit call. -/
def fineTuneEpochs (t : List Event) : List Int :=
  (fitEvents t).filterMap (fun c =>
    match c.checkpoint with | some _ => some c.epochs | none => none)

/-- Checkpoint target paths installed on fit calls of a trace. -/
def ckptTargets (t : List Event) : List String :=
  (fitEvents t).filterMap (fun c => c.checkpoint)

/-- Whether a trace saves a model to the given path. -/
def writesFile (t : List Event) (p : String) : Bool :=
  t.any (fun e => match e with | .saveFile q _ => decide (q = p) | _ => false)

/-- Whether a trace loads a model from the given path. -/
def readsFile (t : List Event) (p : String) : Bool :=
  t.any (fun e => match e with | .loadFile q => decide (q = p) | _ => false)

/-- Plot events of a trace as pairs of figure path and epoch-axis length. -/
def plotEvents (t : List Event) : List (String × Nat) :=
  t.filterMap (fun e => match e with | .plot p n => some (p, n) | _ => none)

/-- Per-layer trainable flags recorded by the first save of a trace to the
given path. -/
def firstSaveFlags (t : List Event) (p : String) : Option (Nat → Bool) :=
  t.findSome? (fun e =>
    match e with
    | .saveFile q fl => if q = p then some fl else none
    | _ => none)

/-- One epoch-end step of keras ModelCheckpoint with save_best_only and
monitor val_acc: mode auto resolves to max-comparison because the
monitored name contains acc, the running best starts unset, and the file
is rewritten only on strict improvement. -/
def ckptStep (best : Option ℚ) (v : ℚ) : Option ℚ :=
  match best with
  | none => some v
  | some b => if b < v then some v else some b

/-- Validation accuracy of the model left on disk by the checkpoint
callback after a fine-tuning run with the given per-epoch values. -/
def ckptSaved (vals : List ℚ) : Option ℚ := vals.foldl ckptStep none

/-- Validation accuracies at which the checkpoint callback rewrote the
file, in order, starting from the given running best. -/
def ckptSaves (best : Option ℚ) : List ℚ → List ℚ
  | [] => []
  | v :: vs =>
    match best with
    | none => v :: ckptSaves (some v) vs
    | some b => if b < v then v :: ckptSaves (some v) vs else ckptSaves (some b) vs

/-- On the fresh path the trace is the fresh event list followed by the
optional plot event. -/
theorem scriptTrace_none (cfg : Config) (lf : Nat → Bool) (raw : RawDataset)
    (hm : cfg.input_model = none) :
    scriptTrace cfg lf raw = freshEvents cfg raw ++ plotTail cfg (max 1 (cfg.epochs - 1)) := by
  simp [scriptTrace, hm]

/-- On the resume path the trace is the resume event list followed by the
optional plot event. -/
theorem scriptTrace_some (cfg : Config) (lf : Nat → Bool) (raw : RawDataset)
    (p : String) (hm : cfg.input_model = some p) :
    scriptTrace cfg lf raw = resumeEvents cfg p lf raw ++ plotTail cfg cfg.epochs := by
  simp [scriptTrace, hm]

/-- C1: the epoch count passed to the final (fine-tuning) fit call — the
one carrying the ModelCheckpoint callback — is max 1 (epochs - 1) when no
input model was supplied and the requested epochs unchanged when one
was. -/
theorem claim_C1 (cfg : Config) (lf : Nat → Bool) (raw : RawDataset) :
    (cfg.input_model = none →
      fineTuneEpochs (scriptTrace cfg lf raw) = [max 1 (cfg.epochs - 1)]) ∧
    (∀ p, cfg.input_model = some p →
      fineTuneEpochs (scriptTrace cfg lf raw) = [cfg.epochs]) := by
  constructor
  · intro hm
    rw [scriptTrace_none cfg lf raw hm]
    cases hG : cfg.graphical_history <;>
      simp [freshEvents, plotTail, hG, fineTuneEpochs, fitEvents,
        List.filterMap_append]
  · intro p hm
    rw [scriptTrace_some cfg lf raw p hm]
    cases hG : cfg.graphical_history <;>
      simp [resumeEvents, plotTail, hG, fineTuneEpochs, fitEvents,
        List.filterMap_append]

/-- Witness for C1 on each path, at epochs 3 fresh and epochs 5 resumed. -/
theorem claim_C1_witness :
    ((⟨1, none, 3, 8, none, "c.h5", ".", "", false⟩ : Config).input_model = none ∧
      fineTuneEpochs (scriptTrace ⟨1, none, 3, 8, none, "c.h5", ".", "", false⟩
        (fun _ => true) ⟨[], [], [], []⟩) =
        [max 1 ((⟨1, none, 3, 8, none, "c.h5", ".", "", false⟩ : Config).epochs - 1)]) ∧
    ((⟨1, some "prior.h5", 5, 8, none, "c.h5", ".", "", false⟩ : Config).input_model =
        some "prior.h5" ∧
      fineTuneEpochs (scriptTrace ⟨1, some "prior.h5", 5, 8, none, "c.h5", ".", "", false⟩
        (fun _ => true) ⟨[], [], [], []⟩) =
        [(⟨1, some "prior.h5", 5, 8, none, "c.h5", ".", "", false⟩ : Config).epochs]) :=
  ⟨⟨rfl, (claim_C1 ⟨1, none, 3, 8, none, "c.h5", ".", "", false⟩
      (fun _ => true) ⟨[], [], [], []⟩).1 rfl⟩,
   ⟨rfl, (claim_C1 ⟨1, some "prior.h5", 5, 8, none, "c.h5", ".", "", false⟩
      (fun _ => true) ⟨[], [], [], []⟩).2 "prior.h5" rfl⟩⟩

/-- C2: with tile count N at least 1 and arrays long enough, the train
slice has length 4N/5, the floor of 0.8N, the validation slice has length
N/5, the floor of 0.2N, and both are leading segments of the respective
named arrays. -/
theorem claim_C2 (N : Nat) (raw : RawDataset) (_hN : 1 ≤ N)
    (ht : train_frac N ≤ raw.train_img.length)
    (hv : val_frac N ≤ raw.val_img.length) :
    (loadData (some N) raw).train_data.length = 4 * N / 5 ∧
    (loadData (some N) raw).val_data.length = N / 5 ∧
    (∃ r, (loadData (some N) raw).train_data ++ r = raw.train_img) ∧
    (∃ r, (loadData (some N) raw).val_data ++ r = raw.val_img) := by
  refine ⟨?_, ?_, ?_, ?_⟩
  · show (raw.train_img.take (train_frac N)).length = 4 * N / 5
    rw [List.length_take, Nat.min_eq_left ht]
    show N * 8 / 10 = 4 * N / 5
    omega
  · show (raw.val_img.take (val_frac N)).length = N / 5
    rw [List.length_take, Nat.min_eq_left hv]
    show N * 2 / 10 = N / 5
    omega
  · exact ⟨raw.train_img.drop (train_frac N), List.take_append_drop _ _⟩
  · exact ⟨raw.val_img.drop (val_frac N), List.take_append_drop _ _⟩

/-- Dataset content used by the C2 witness: 16 train rows, 4 val rows. -/
def rawW2 : RawDataset :=
  ⟨List.range 16, List.replicate 16 0, List.range 4, List.replicate 4 0⟩

/-- Witness for C2 at N = 20: train slice of 16 rows, val slice of 4. -/
theorem claim_C2_witness :
    (1 ≤ 20 ∧ train_frac 20 ≤ rawW2.train_img.length ∧
      val_frac 20 ≤ rawW2.val_img.length) ∧
    (loadData (some 20) rawW2).train_data.length = 4 * 20 / 5 ∧
    (loadData (some 20) rawW2).val_data.length = 20 / 5 := by
  have h := claim_C2 20 rawW2 (by decide) (by decide) (by decide)
  exact ⟨⟨by decide, by decide, by decide⟩, h.1, h.2.1⟩

/-- After the unfreeze loop every layer is trainable: indices below 280
are set by the loop, and indices from 280 on were already trainable. -/
theorem unfrozenFlags_true (i : Nat) : unfrozenFlags i = true := by
  simp only [unfrozenFlags, phase1Flags, setBelow, setFrom]
  by_cases h : i < 280
  · simp [h]
  · have h2 : 280 ≤ i := Nat.not_lt.mp h
    simp [h, h2]

/-- During phase 1 the backbone layers, indices below 280, are frozen. -/
theorem phase1Flags_below (i : Nat) (h : i < 280) : phase1Flags i = false := by
  have h2 : ¬ 280 ≤ i := by omega
  simp [phase1Flags, setBelow, setFrom, h, h2]

/-- During phase 1 the head layers, indices from 280 on, are trainable. -/
theorem phase1Flags_above (i : Nat) (h : 280 ≤ i) : phase1Flags i = true := by
  simp [phase1Flags, setBelow, setFrom, h]

/-- Fresh-path configuration shared by the witnesses below. -/
def cfgF : Config := ⟨1, none, 3, 8, none, "camelyon.h5", "out", "run", false⟩

/-- Empty dataset content shared by the witnesses below. -/
def raw0 : RawDataset := ⟨[], [], [], []⟩

/-- All-trainable flag assignment shared by the witnesses below. -/
def allOn : Nat → Bool := fun _ => true

/-- C3: on the fresh path, intermediate_model.hdf5 is saved under that
fixed bare name (event index 3) strictly before phase 2, which reloads it
(event index 4) and then runs the checkpointed fine-tuning fit (event
index 6). -/
theorem claim_C3 (cfg : Config) (lf : Nat → Bool) (raw : RawDataset)
    (hm : cfg.input_model = none) :
    ∃ fl c,
      (scriptTrace cfg lf raw).get? 3 =
        some (Event.saveFile "intermediate_model.hdf5" fl) ∧
      (scriptTrace cfg lf raw).get? 4 =
        some (Event.loadFile "intermediate_model.hdf5") ∧
      (scriptTrace cfg lf raw).get? 6 = some (Event.fit c) ∧
      c.checkpoint = some (checkpointPath cfg) ∧
      writesFile (scriptTrace cfg lf raw) "intermediate_model.hdf5" = true := by
  rw [scriptTrace_none cfg lf raw hm]
  exact ⟨unfrozenFlags, _, rfl, rfl, rfl, rfl, rfl⟩

/-- Witness for C3 at a concrete fresh-path run. -/
theorem claim_C3_witness :
    cfgF.input_model = none ∧
    (∃ fl c,
      (scriptTrace cfgF allOn raw0).get? 3 =
        some (Event.saveFile "intermediate_model.hdf5" fl) ∧
      (scriptTrace cfgF allOn raw0).get? 4 =
        some (Event.loadFile "intermediate_model.hdf5") ∧
      (scriptTrace cfgF allOn raw0).get? 6 = some (Event.fit c) ∧
      c.checkpoint = some (checkpointPath cfgF) ∧
      writesFile (scriptTrace cfgF allOn raw0) "intermediate_model.hdf5" = true) :=
  ⟨rfl, claim_C3 cfgF allOn raw0 rfl⟩

/-- C6 as amended: when intermediate_model.hdf5 is serialized, every
layer — the backbone included — is already trainable again, because the
unfreeze loop runs before the save; the model is head-only trained in
that the single fit before the save ran 1 epoch with the backbone
frozen. -/
theorem claim_C6 (cfg : Config) (lf : Nat → Bool) (raw : RawDataset)
    (hm : cfg.input_model = none) :
    ∃ fl c,
      (scriptTrace cfg lf raw).get? 3 =
        some (Event.saveFile "intermediate_model.hdf5" fl) ∧
      (∀ i, fl i = true) ∧
      (scriptTrace cfg lf raw).get? 1 = some (Event.fit c) ∧
      c.epochs = 1 ∧
      (∀ i, i < 280 → c.flags i = false) ∧
      (fitEvents ((scriptTrace cfg lf raw).take 4)).length = 1 := by
  rw [scriptTrace_none cfg lf raw hm]
  exact ⟨unfrozenFlags, _, rfl, unfrozenFlags_true, rfl, rfl, phase1Flags_below, rfl⟩

/-- Counterexample for C6 as stated: at a concrete fresh-path run, the
flags recorded by the save of intermediate_model.hdf5 mark backbone layer
0 trainable, not non-trainable. -/
theorem claim_C6_counterexample :
    (firstSaveFlags (scriptTrace cfgF allOn raw0) "intermediate_model.hdf5").map
      (fun f => f 0) = some true := by rfl

/-- Witness for C6 as amended at a concrete fresh-path run. -/
theorem claim_C6_witness :
    cfgF.input_model = none ∧
    (∃ fl c,
      (scriptTrace cfgF allOn raw0).get? 3 =
        some (Event.saveFile "intermediate_model.hdf5" fl) ∧
      (∀ i, fl i = true) ∧
      (scriptTrace cfgF allOn raw0).get? 1 = some (Event.fit c) ∧
      c.epochs = 1 ∧
      (∀ i, i < 280 → c.flags i = false) ∧
      (fitEvents ((scriptTrace cfgF allOn raw0).take 4)).length = 1) :=
  ⟨rfl, claim_C6 cfgF allOn raw0 rfl⟩

/-- C7: on the fresh path, the recompile after the phase-1 fit (event
index 2) uses the sgd optimizer and the categorical cross-entropy loss
with an empty metric list, and at that point every layer is trainable. -/
theorem claim_C7 (cfg : Config) (lf : Nat → Bool) (raw : RawDataset)
    (hm : cfg.input_model = none) :
    ∃ co,
      (scriptTrace cfg lf raw).get? 2 = some (Event.compile co) ∧
      co.optimizer = "sgd" ∧ co.loss = "categorical_crossentropy" ∧
      co.metrics = [] ∧ (∀ i, co.flags i = true) := by
  rw [scriptTrace_none cfg lf raw hm]
  exact ⟨_, rfl, rfl, rfl, rfl, unfrozenFlags_true⟩

/-- Witness for C7 at a concrete fresh-path run. -/
theorem claim_C7_witness :
    cfgF.input_model = none ∧
    (∃ co,
      (scriptTrace cfgF allOn raw0).get? 2 = some (Event.compile co) ∧
      co.optimizer = "sgd" ∧ co.loss = "categorical_crossentropy" ∧
      co.metrics = [] ∧ (∀ i, co.flags i = true)) :=
  ⟨rfl, claim_C7 cfgF allOn raw0 rfl⟩

/-- C8: on the fresh path, the phase-1 fit (event index 1) runs exactly
one epoch over the loaded training arrays with batch-ordered shuffling
and no validation data, with layers below index 280 frozen and layers
from index 280 on trainable. -/
theorem claim_C8 (cfg : Config) (lf : Nat → Bool) (raw : RawDataset)
    (hm : cfg.input_model = none) :
    ∃ c,
      (scriptTrace cfg lf raw).get? 1 = some (Event.fit c) ∧
      c.epochs = 1 ∧
      c.trainX = (loadData cfg.tiles raw).train_data ∧
      c.trainY = (loadData cfg.tiles raw).train_labels ∧
      c.validation = none ∧
      c.shuffleBatch = true ∧
      c.batchSize = cfg.batch_size ∧
      (∀ i, i < 280 → c.flags i = false) ∧
      (∀ i, 280 ≤ i → c.flags i = true) := by
  rw [scriptTrace_none cfg lf raw hm]
  exact ⟨_, rfl, rfl, rfl, rfl, rfl, rfl, rfl, phase1Flags_below, phase1Flags_above⟩

/-- Witness for C8 at a concrete fresh-path run. -/
theorem claim_C8_witness :
    cfgF.input_model = none ∧
    (∃ c,
      (scriptTrace cfgF allOn raw0).get? 1 = some (Event.fit c) ∧
      c.epochs = 1 ∧
      c.trainX = (loadData cfgF.tiles raw0).train_data ∧
      c.trainY = (loadData cfgF.tiles raw0).train_labels ∧
      c.validation = none ∧
      c.shuffleBatch = true ∧
      c.batchSize = cfgF.batch_size ∧
      (∀ i, i < 280 → c.flags i = false) ∧
      (∀ i, 280 ≤ i → c.flags i = true)) :=
  ⟨rfl, claim_C8 cfgF allOn raw0 rfl⟩

/-- Resume-path configuration shared by the witnesses below. -/
def cfgR : Config := ⟨2, some "prior.h5", 5, 8, some 20, "camelyon.h5", "out/", "run", false⟩

/-- C9 as amended: on the resume path exactly one fit runs, with the
requested epoch count; intermediate_model.hdf5 is never written, and it
is never read provided the user-supplied input path is not itself that
file name. -/
theorem claim_C9 (cfg : Config) (lf : Nat → Bool) (raw : RawDataset) (p : String)
    (hm : cfg.input_model = some p) (hp : p ≠ "intermediate_model.hdf5") :
    (fitEvents (scriptTrace cfg lf raw)).length = 1 ∧
    fitEpochsList (scriptTrace cfg lf raw) = [cfg.epochs] ∧
    writesFile (scriptTrace cfg lf raw) "intermediate_model.hdf5" = false ∧
    readsFile (scriptTrace cfg lf raw) "intermediate_model.hdf5" = false := by
  rw [scriptTrace_some cfg lf raw p hm]
  cases hG : cfg.graphical_history <;>
    simp [resumeEvents, plotTail, hG, fitEvents, fitEpochsList, writesFile,
      readsFile, List.filterMap_append, List.any_append, hp]

/-- Resume-path configuration whose input model is the intermediate file
name itself. -/
def cfg9 : Config :=
  ⟨1, some "intermediate_model.hdf5", 5, 8, none, "camelyon.h5", ".", "", false⟩

/-- Counterexample for C9 as stated: when the supplied input model path
is intermediate_model.hdf5, the resume path does read that file. -/
theorem claim_C9_counterexample :
    cfg9.input_model = some "intermediate_model.hdf5" ∧
    readsFile (scriptTrace cfg9 allOn raw0) "intermediate_model.hdf5" = true :=
  ⟨rfl, rfl⟩

/-- Witness for C9 as amended at a concrete resume-path run. -/
theorem claim_C9_witness :
    (cfgR.input_model = some "prior.h5" ∧
      "prior.h5" ≠ "intermediate_model.hdf5") ∧
    (fitEvents (scriptTrace cfgR allOn raw0)).length = 1 ∧
    fitEpochsList (scriptTrace cfgR allOn raw0) = [cfgR.epochs] ∧
    writesFile (scriptTrace cfgR allOn raw0) "intermediate_model.hdf5" = false ∧
    readsFile (scriptTrace cfgR allOn raw0) "intermediate_model.hdf5" = false :=
  ⟨⟨rfl, by decide⟩, claim_C9 cfgR allOn raw0 "prior.h5" rfl (by decide)⟩

/-- Every one-hot row produced by to_categorical has the width inferred
from the encoded column. -/
theorem to_categorical_length (ys : List Nat) :
    ∀ v ∈ to_categorical ys, v.length = numClasses ys := by
  intro v hv
  simp only [to_categorical, List.mem_map] at hv
  obtain ⟨y, _, rfl⟩ := hv
  simp

/-- C5 as amended: each split gets one-hot vectors whose class
cardinality is one plus the maximum label of that split alone; both
cardinalities equal 2 exactly when each loaded slice has maximum label
1.  The code does not tie the two widths together. -/
theorem claim_C5 (tiles : Option Nat) (raw : RawDataset)
    (htm : maxLabel (trainLabelSlice tiles raw) = 1)
    (hvm : maxLabel (valLabelSlice tiles raw) = 1) :
    (∀ v ∈ (loadData tiles raw).train_labels,
        v.length = numClasses (trainLabelSlice tiles raw)) ∧
    (∀ v ∈ (loadData tiles raw).val_labels,
        v.length = numClasses (valLabelSlice tiles raw)) ∧
    (∀ v ∈ (loadData tiles raw).train_labels, v.length = 2) ∧
    (∀ v ∈ (loadData tiles raw).val_labels, v.length = 2) := by
  refine ⟨?_, ?_, ?_, ?_⟩
  · exact to_categorical_length _
  · exact to_categorical_length _
  · intro v hv
    have h := to_categorical_length (trainLabelSlice tiles raw) v hv
    rw [h]
    simp [numClasses, htm]
  · intro v hv
    have h := to_categorical_length (valLabelSlice tiles raw) v hv
    rw [h]
    simp [numClasses, hvm]

/-- Dataset content refuting C5 as stated: the validation slice only
contains label 0. -/
def raw5 : RawDataset := ⟨[10, 11], [0, 1], [20], [0]⟩

/-- Counterexample for C5 as stated: at this dataset the train one-hot
vectors have width 2 but the validation one-hot vector has width 1. -/
theorem claim_C5_counterexample :
    ((loadData none raw5).train_labels.map List.length = [2, 2] ∧
      (loadData none raw5).val_labels.map List.length = [1]) ∧
    ¬ (∀ v ∈ (loadData none raw5).val_labels, v.length = 2) := by decide

/-- Dataset content for the C5 witness: both splits contain labels 0 and
1. -/
def raw5w : RawDataset := ⟨[10, 11], [0, 1], [20, 21], [1, 0]⟩

/-- Witness for C5 as amended at a concrete dataset. -/
theorem claim_C5_witness :
    (maxLabel (trainLabelSlice none raw5w) = 1 ∧
      maxLabel (valLabelSlice none raw5w) = 1) ∧
    (∀ v ∈ (loadData none raw5w).train_labels, v.length = 2) ∧
    (∀ v ∈ (loadData none raw5w).val_labels, v.length = 2) :=
  ⟨⟨by decide, by decide⟩, (claim_C5 none raw5w (by decide) (by decide)).2.2⟩

/-- Folding a checkpoint step from a set running best is folding max. -/
theorem foldl_ckptStep (vs : List ℚ) (b : ℚ) :
    vs.foldl ckptStep (some b) = some (vs.foldl max b) := by
  induction vs generalizing b with
  | nil => rfl
  | cons v ws ih =>
    have h : ckptStep (some b) v = some (max b v) := by
      by_cases h : b < v
      · simp [ckptStep, h, max_eq_right h.le]
      · simp [ckptStep, h, max_eq_left (not_lt.mp h)]
    simp only [List.foldl_cons, h, ih]

/-- The checkpoint left on disk after a nonempty run carries the folded
maximum of the observed validation accuracies. -/
theorem ckptSaved_eq (v : ℚ) (vs : List ℚ) :
    ckptSaved (v :: vs) = some (vs.foldl max v) := by
  have h : ckptStep none v = some v := rfl
  simp only [ckptSaved, List.foldl_cons, h]
  exact foldl_ckptStep vs v

/-- The folded maximum is one of the folded values. -/
theorem foldl_max_mem (vs : List ℚ) (v : ℚ) : vs.foldl max v ∈ v :: vs := by
  induction vs generalizing v with
  | nil => simp
  | cons w ws ih =>
    have h := ih (max v w)
    rw [List.foldl_cons]
    rcases List.mem_cons.mp h with h1 | h1
    · rw [h1]
      rcases le_total v w with hle | hle
      · simp [max_eq_right hle]
      · simp [max_eq_left hle]
    · exact List.mem_cons_of_mem _ (List.mem_cons_of_mem _ h1)

/-- The folded maximum bounds every folded value. -/
theorem le_foldl_max (vs : List ℚ) (v : ℚ) :
    ∀ x ∈ v :: vs, x ≤ vs.foldl max v := by
  induction vs generalizing v with
  | nil =>
    intro x hx
    simp only [List.mem_singleton] at hx
    simp [hx]
  | cons w ws ih =>
    intro x hx
    rw [List.foldl_cons]
    have hhead := ih (max v w) (max v w) (List.mem_cons_self _ _)
    rcases List.mem_cons.mp hx with h1 | h1
    · rw [h1]
      exact le_trans (le_max_left v w) hhead
    · rcases List.mem_cons.mp h1 with h2 | h2
      · rw [h2]
        exact le_trans (le_max_right v w) hhead
      · exact ih (max v w) x (List.mem_cons_of_mem _ h2)

/-- Every value at which the callback rewrites the file strictly exceeds
the running best it started from. -/
theorem ckptSaves_gt (vs : List ℚ) :
    ∀ b : ℚ, ∀ x ∈ ckptSaves (some b) vs, b < x := by
  induction vs with
  | nil =>
    intro b x hx
    simp [ckptSaves] at hx
  | cons v ws ih =>
    intro b x hx
    rw [ckptSaves] at hx
    by_cases h : b < v
    · simp only [h, if_true, List.mem_cons] at hx
      rcases hx with h1 | h1
      · exact h1 ▸ h
      · exact lt_trans h (ih v x h1)
    · simp only [h, if_false] at hx
      exact ih b x hx

/-- The file contents written by the callback are strictly increasing in
validation accuracy: a worse later epoch never overwrites the file. -/
theorem ckptSaves_chain (vs : List ℚ) :
    ∀ best : Option ℚ, List.Chain' (fun a b : ℚ => a < b) (ckptSaves best vs) := by
  induction vs with
  | nil =>
    intro best
    simp [ckptSaves]
  | cons v ws ih =>
    intro best
    cases best with
    | none =>
      rw [ckptSaves]
      refine List.chain'_cons'.mpr ⟨?_, ih (some v)⟩
      intro y hy
      exact ckptSaves_gt ws v y (List.mem_of_mem_head? hy)
    | some b =>
      rw [ckptSaves]
      by_cases h : b < v
      · simp only [h, if_true]
        refine List.chain'_cons'.mpr ⟨?_, ih (some v)⟩
        intro y hy
        exact ckptSaves_gt ws v y (List.mem_of_mem_head? hy)
      · simp only [h, if_false]
        exact ih (some b)

/-- C4: the fine-tuning fit is the only checkpointed one and targets the
path output directory, slash, output name, suffix _model.h5; the
checkpoint callback leaves on disk the highest observed validation
accuracy of the run, and its writes are strictly improving, so a worse
later epoch never overwrites the file. -/
theorem claim_C4 (cfg : Config) (lf : Nat → Bool) (raw : RawDataset)
    (v x : ℚ) (vs : List ℚ) (hx : x ∈ v :: vs) :
    ckptTargets (scriptTrace cfg lf raw) = [checkpointPath cfg] ∧
    checkpointPath cfg =
      rstripSlash cfg.output_directory ++ "/" ++ cfg.output_name ++ "_model.h5" ∧
    ckptSaved (v :: vs) = some (vs.foldl max v) ∧
    vs.foldl max v ∈ v :: vs ∧
    x ≤ vs.foldl max v ∧
    List.Chain' (fun a b : ℚ => a < b) (ckptSaves none (v :: vs)) := by
  refine ⟨?_, rfl, ckptSaved_eq v vs, foldl_max_mem vs v,
    le_foldl_max vs v x hx, ckptSaves_chain (v :: vs) none⟩
  cases hm : cfg.input_model with
  | none =>
    rw [scriptTrace_none cfg lf raw hm]
    cases hG : cfg.graphical_history <;>
      simp [freshEvents, plotTail, hG, ckptTargets, fitEvents, List.filterMap_append]
  | some p =>
    rw [scriptTrace_some cfg lf raw p hm]
    cases hG : cfg.graphical_history <;>
      simp [resumeEvents, plotTail, hG, ckptTargets, fitEvents, List.filterMap_append]

/-- Witness for C4: checkpoint target of a concrete run and the saved
best of a concrete accuracy sequence. -/
theorem claim_C4_witness :
    ((3 : ℚ) ∈ [(1 : ℚ), 3, 2]) ∧
    ckptSaved [(1 : ℚ), 3, 2] = some (List.foldl max (1 : ℚ) [3, 2]) ∧
    (3 : ℚ) ≤ List.foldl max (1 : ℚ) [3, 2] ∧
    ckptTargets (scriptTrace cfgF allOn raw0) = [checkpointPath cfgF] := by
  have h := claim_C4 cfgF allOn raw0 (1 : ℚ) (3 : ℚ) [3, 2] (by simp)
  exact ⟨by simp, h.2.2.1, h.2.2.2.2.1, h.1⟩

/-- Fresh-path configuration with the history flag, for C10. -/
def cfgH : Config := ⟨1, none, 3, 8, none, "camelyon.h5", "out", "run", true⟩

/-- Resume-path configuration with the history flag, for C10. -/
def cfgHR : Config := ⟨1, some "prior.h5", 5, 8, none, "camelyon.h5", "out", "run", true⟩

/-- C10: with plotting enabled there is exactly one plot event, drawn
from the history of the fine-tuning fit: its epoch axis has length
max 1 (epochs - 1) on the fresh path, the phase-1 epoch excluded, and
length epochs on the resume path for any positive requested count. -/
theorem claim_C10 (cfg : Config) (lf : Nat → Bool) (raw : RawDataset)
    (hH : cfg.graphical_history = true) :
    (cfg.input_model = none →
      plotEvents (scriptTrace cfg lf raw) =
        [(historyPath cfg, (max 1 (cfg.epochs - 1)).toNat)] ∧
      ((max 1 (cfg.epochs - 1)).toNat : Int) = max 1 (cfg.epochs - 1)) ∧
    (∀ p, cfg.input_model = some p → 1 ≤ cfg.epochs →
      plotEvents (scriptTrace cfg lf raw) =
        [(historyPath cfg, cfg.epochs.toNat)] ∧
      (cfg.epochs.toNat : Int) = cfg.epochs) := by
  constructor
  · intro hm
    constructor
    · rw [scriptTrace_none cfg lf raw hm]
      simp [freshEvents, plotTail, hH, plotEvents, fitHistoryLen, List.filterMap_append]
    · omega
  · intro p hm he
    constructor
    · rw [scriptTrace_some cfg lf raw p hm]
      simp [resumeEvents, plotTail, hH, plotEvents, fitHistoryLen, List.filterMap_append]
    · omega

/-- Witness for C10 on each path. -/
theorem claim_C10_witness :
    (cfgH.graphical_history = true ∧ cfgH.input_model = none ∧
      plotEvents (scriptTrace cfgH allOn raw0) =
        [(historyPath cfgH, (max 1 (cfgH.epochs - 1)).toNat)]) ∧
    (cfgHR.graphical_history = true ∧ cfgHR.input_model = some "prior.h5" ∧
      1 ≤ cfgHR.epochs ∧
      plotEvents (scriptTrace cfgHR allOn raw0) =
        [(historyPath cfgHR, cfgHR.epochs.toNat)]) :=
  ⟨⟨rfl, rfl, ((claim_C10 cfgH allOn raw0 rfl).1 rfl).1⟩,
   ⟨rfl, rfl, by decide,
    ((claim_C10 cfgHR allOn raw0 rfl).2 "prior.h5" rfl (by decide)).1⟩⟩

end Camelyon
